import Mathlib

/-!
Verification development for the Smart-Security-camera repository.

The repository contains several script variants (security_camera.py, new.py,
usb.py, debug.py, debug2.py, debug3.py) of the same motion-triggered recording
appliance.  We shallowly embed the observable behaviour of the
`motion_detection` polling loop, the `record_video` operation of each variant,
the `toggle_motion` control operation, and the camera-handle usage of
debug3.py.

Time is modelled in ticks of 0.1 s — the granularity of every `time.sleep(0.1)`
checkpoint in the polling and recording loops.  So `RECORD_DURATION = 10 s`
becomes `duration = 100` ticks, `COOLDOWN_TIME = 5 s` becomes `cooldown = 50`
ticks, and the 1 s back-off `time.sleep(1)` becomes `10` ticks.  The sensor
level, the `motion_enabled` flag and camera availability are environment traces
indexed by the tick at which the code reads them.  One iteration of the
detection loop (read sensor, test the guard, spawn the recording thread whose
first statement sets `recording = True`) is treated as atomic: the loop sleeps
at least a full cooldown before its next poll, so the spawned thread has set
the flag long before the next read.
-/

set_option maxRecDepth 100000

namespace SmartSecurityCamera

/-- Configuration constants shared by all variants: `RECORD_DURATION` and
`COOLDOWN_TIME`, in ticks of 0.1 s. -/
structure Config where
  duration : Nat
  cooldown : Nat
deriving DecidableEq

/-- A recording session: the tick at which `record_video` set
`recording = True` and the tick at which it cleared it again. -/
structure Session where
  start : Nat
  stop : Nat
deriving DecidableEq

/-- End tick of the `record_video` while-loop.  The loop polls once per tick
starting at tick `t` with `fuel = RECORD_DURATION` ticks remaining; its
condition is `(time.time() - start_time) < RECORD_DURATION` and, in the
variants whose loop also tests the flag (`checksEnabled = true`, as in
new.py / usb.py / debug2.py / debug3.py / security_camera.py, unlike debug.py),
additionally `and motion_enabled`. -/
def recEnd (enabled : Nat → Bool) (checksEnabled : Bool) : Nat → Nat → Nat
  | 0, t => t
  | fuel + 1, t =>
    if checksEnabled && !(enabled t) then t
    else recEnd enabled checksEnabled fuel (t + 1)

theorem recEnd_ge (enabled : Nat → Bool) (ce : Bool) :
    ∀ fuel t, t ≤ recEnd enabled ce fuel t := by
  intro fuel
  induction fuel with
  | zero => intro t; exact Nat.le_refl t
  | succ n ih =>
    intro t
    unfold recEnd
    by_cases h : (ce && !(enabled t)) = true
    · rw [if_pos h]
    · rw [if_neg h]
      exact Nat.le_trans (Nat.le_succ t) (ih (t + 1))

theorem recEnd_le (enabled : Nat → Bool) (ce : Bool) :
    ∀ fuel t, recEnd enabled ce fuel t ≤ t + fuel := by
  intro fuel
  induction fuel with
  | zero => intro t; exact Nat.le_refl t
  | succ n ih =>
    intro t
    unfold recEnd
    by_cases h : (ce && !(enabled t)) = true
    · rw [if_pos h]; omega
    · rw [if_neg h]
      have := ih (t + 1)
      omega

/-- The debug.py record loop never tests `motion_enabled`: it always runs the
full planned duration. -/
theorem recEnd_no_check (enabled : Nat → Bool) :
    ∀ fuel t, recEnd enabled false fuel t = t + fuel := by
  intro fuel
  induction fuel with
  | zero => intro t; rfl
  | succ n ih =>
    intro t
    unfold recEnd
    rw [if_neg (by simp)]
    rw [ih (t + 1)]
    omega

/-- If the flag is clear at tick `t0` and the loop tests it, the loop has
terminated by tick `t0`: each poll before `t0` either already stopped or
advances one tick towards `t0`. -/
theorem recEnd_stop (enabled : Nat → Bool) {t0 : Nat} (h0 : enabled t0 = false) :
    ∀ fuel t, t ≤ t0 → recEnd enabled true fuel t ≤ t0 := by
  intro fuel
  induction fuel with
  | zero => intro t ht; exact ht
  | succ n ih =>
    intro t ht
    unfold recEnd
    by_cases h : (true && !(enabled t)) = true
    · rw [if_pos h]; exact ht
    · rw [if_neg h]
      have hen : enabled t = true := by
        cases he : enabled t
        · exact absurd (by simp [he]) h
        · rfl
      have hne : t ≠ t0 := by
        intro he; rw [he] at hen; rw [hen] at h0; cases h0
      exact ih (t + 1) (by omega)

/-- If the flag stays set forever, the loop runs the full planned duration. -/
theorem recEnd_all_true (enabled : Nat → Bool) (h : ∀ t, enabled t = true) :
    ∀ fuel t, recEnd enabled true fuel t = t + fuel := by
  intro fuel
  induction fuel with
  | zero => intro t; rfl
  | succ n ih =>
    intro t
    unfold recEnd
    rw [if_neg (by simp [h t])]
    rw [ih (t + 1)]
    omega

/-- State of the `motion_detection` loop composed with the visible effect of
`record_video`: the current tick, the tick until which the `recording` flag is
set (`recording` holds iff `time < recUntil`), and the sessions created so
far, oldest first. -/
structure LoopState where
  time : Nat
  recUntil : Nat
  sessions : List Session
deriving DecidableEq

/-- One iteration of the `motion_detection` loop (all variants share this
shape).  It reads the sensor level and, when
`motion_detected and not recording and motion_enabled`, spawns `record_video`
(which sets `recording = True` at once and clears it at the loop end computed
by `recEnd`) and sleeps `COOLDOWN_TIME` followed by the regular 0.1 s poll
sleep; otherwise it just sleeps 0.1 s. -/
def loopStep (sensor enabled : Nat → Bool) (ce : Bool) (cfg : Config)
    (s : LoopState) : LoopState :=
  if sensor s.time && !(decide (s.time < s.recUntil)) && enabled s.time then
    ⟨s.time + cfg.cooldown + 1, recEnd enabled ce cfg.duration s.time,
      s.sessions ++ [⟨s.time, recEnd enabled ce cfg.duration s.time⟩]⟩
  else
    ⟨s.time + 1, s.recUntil, s.sessions⟩

/-- Run `fuel` iterations of the detection loop. -/
def runLoop (sensor enabled : Nat → Bool) (ce : Bool) (cfg : Config) :
    Nat → LoopState → LoopState
  | 0, s => s
  | fuel + 1, s => runLoop sensor enabled ce cfg fuel (loopStep sensor enabled ce cfg s)

/-- Two consecutively created sessions neither overlap nor start within one
cooldown (plus one poll tick) of the previous trigger. -/
def sessionsOrdered (cfg : Config) (a b : Session) : Prop :=
  a.stop ≤ b.start ∧ a.start + cfg.cooldown + 1 ≤ b.start

/-- Inductive invariant of the detection loop. -/
def LoopInv (cfg : Config) (s : LoopState) : Prop :=
  List.Pairwise (sessionsOrdered cfg) s.sessions ∧
  ∀ a ∈ s.sessions,
    a.start ≤ a.stop ∧ a.stop ≤ s.recUntil ∧ a.start + cfg.cooldown + 1 ≤ s.time

theorem loopStep_inv (sensor enabled : Nat → Bool) (ce : Bool) (cfg : Config)
    (s : LoopState) (h : LoopInv cfg s) :
    LoopInv cfg (loopStep sensor enabled ce cfg s) := by
  obtain ⟨hp, hall⟩ := h
  unfold loopStep
  by_cases hg : (sensor s.time && !(decide (s.time < s.recUntil)) && enabled s.time) = true
  · rw [if_pos hg]
    have hidle : s.recUntil ≤ s.time := by
      have h2 : (!(decide (s.time < s.recUntil))) = true := by
        simp only [Bool.and_eq_true] at hg
        exact hg.1.2
      simp only [Bool.not_eq_true', decide_eq_false_iff_not, Nat.not_lt] at h2
      exact h2
    have hge := recEnd_ge enabled ce cfg.duration s.time
    constructor
    · rw [List.pairwise_append]
      refine ⟨hp, List.pairwise_singleton _ _, ?_⟩
      intro a ha b hb
      simp only [List.mem_singleton] at hb
      subst hb
      obtain ⟨_, hstop, hcool⟩ := hall a ha
      constructor
      · exact Nat.le_trans hstop hidle
      · show a.start + cfg.cooldown + 1 ≤ s.time
        omega
    · intro a ha
      rw [List.mem_append] at ha
      rcases ha with ha | ha
      · obtain ⟨h1, h2, h3⟩ := hall a ha
        refine ⟨h1, Nat.le_trans h2 (Nat.le_trans hidle hge), ?_⟩
        show a.start + cfg.cooldown + 1 ≤ s.time + cfg.cooldown + 1
        omega
      · simp only [List.mem_singleton] at ha
        subst ha
        exact ⟨hge, Nat.le_refl _, Nat.le_refl _⟩
  · rw [if_neg hg]
    refine ⟨hp, ?_⟩
    intro a ha
    obtain ⟨h1, h2, h3⟩ := hall a ha
    refine ⟨h1, h2, ?_⟩
    show a.start + cfg.cooldown + 1 ≤ s.time + 1
    omega

theorem runLoop_inv (sensor enabled : Nat → Bool) (ce : Bool) (cfg : Config) :
    ∀ fuel s, LoopInv cfg s → LoopInv cfg (runLoop sensor enabled ce cfg fuel s) := by
  intro fuel
  induction fuel with
  | zero => intro s h; exact h
  | succ n ih =>
    intro s h
    exact ih _ (loopStep_inv sensor enabled ce cfg s h)

/-- The initial state (loop started at tick 0, no recording, no sessions). -/
def initLoopState : LoopState := ⟨0, 0, []⟩

theorem initLoopState_inv (cfg : Config) : LoopInv cfg initLoopState := by
  constructor
  · exact List.Pairwise.nil
  · intro a ha; cases ha

/-- Outcome of one `record_video` call: the tick at which the `recording` flag
was cleared, how much `motion_count` was incremented, and whether the call
took its exception branch. -/
structure RecOutcome where
  endTime : Nat
  countInc : Nat
  failed : Bool
deriving DecidableEq

/-- new.py `record_video` (lines 139-186).  `startOk` is whether
`picam2.start_recording` succeeds; on an exception the except-branch is taken
and nothing is counted.  Otherwise the loop runs
`while elapsed < RECORD_DURATION and motion_enabled: sleep(0.1)`, then
`motion_count` is incremented only under the post-loop `if motion_enabled:`
test — so an early stop caused by clearing the flag is NOT counted.
security_camera.py lines 123-156 have the same loop and the same post-loop
test. -/
def newRecordVideo (enabled : Nat → Bool) (startOk : Bool) (cfg : Config)
    (start : Nat) : RecOutcome :=
  if startOk then
    if enabled (recEnd enabled true cfg.duration start) then
      ⟨recEnd enabled true cfg.duration start, 1, false⟩
    else
      ⟨recEnd enabled true cfg.duration start, 0, false⟩
  else
    ⟨start, 0, true⟩

/-- debug.py `record_video` (lines 62-81).  Its loop condition is only
`(time.time() - start_time) < RECORD_DURATION` — `motion_enabled` is never
consulted — and `motion_count += 1` runs unconditionally after the loop. -/
def debugRecordVideo (enabled : Nat → Bool) (cfg : Config) (start : Nat) :
    RecOutcome :=
  ⟨recEnd enabled false cfg.duration start, 1, false⟩

/-- End of the usb.py recording loop: `while elapsed < RECORD_DURATION and
motion_enabled:` with `break` when `camera.read()` fails.  Returns the end
tick and whether the loop ended via the frame-failure `break`. -/
def usbRecEnd (enabled frames : Nat → Bool) : Nat → Nat → Nat × Bool
  | 0, t => (t, false)
  | fuel + 1, t =>
    if !(enabled t) then (t, false)
    else if !(frames t) then (t, true)
    else usbRecEnd enabled frames fuel (t + 1)

/-- Outcome of usb.py `record_video`: besides the end tick and counter
increment, whether the artifact file is still on disk when the job finishes,
how many Telegram send calls were made, whether an exception escaped the
function, and whether the loop broke on a frame-capture failure. -/
structure UsbRecOutcome where
  endTime : Nat
  countInc : Nat
  fileRetained : Bool
  sendAttempts : Nat
  sendFailReported : Bool
  raisedOut : Bool
  frameFail : Bool
deriving DecidableEq

/-- usb.py `record_video` (lines 149-222).  If the `cv2.VideoWriter` fails to
open, the function prints an error, clears `recording` and returns before the
try-block: no file, no count, no event.  Otherwise the loop runs to
`usbRecEnd`; the `finally:` block releases the writer and, when a bot is
configured, makes exactly one `send_video` attempt inside its own
try/except (so a delivery failure is printed, never raised) and then runs
`os.remove(filename)` unconditionally — the artifact is deleted whether or
not the delivery succeeded — and finally always runs `motion_count += 1`,
even when the session ended in a frame-capture failure. -/
def usbRecordVideo (enabled frames : Nat → Bool) (writerOk botPresent sendOk : Bool)
    (cfg : Config) (start : Nat) : UsbRecOutcome :=
  if writerOk then
    ⟨(usbRecEnd enabled frames cfg.duration start).1, 1, !botPresent,
      if botPresent then 1 else 0, botPresent && !sendOk, false,
      (usbRecEnd enabled frames cfg.duration start).2⟩
  else
    ⟨start, 0, false, 0, false, false, false⟩

/-- Outcome of security_camera.py `record_video`. -/
structure ScRecOutcome where
  endTime : Nat
  countInc : Nat
  fileRetained : Bool
  sendAttempts : Nat
  raisedOut : Bool
deriving DecidableEq

/-- security_camera.py `record_video` (lines 123-156).  `start_recording` may
raise (`startOk = false`): then the outer except prints and the finally
clears `recording` — no count, no artifact.  Otherwise, after the loop and
`stop_recording`, under `if motion_enabled:` the count is incremented and —
when a bot is configured and the file exists — `bot.send_video` is called
once with NO inner try: a delivery failure propagates to the outer
`except Exception`, which prints it (so it is reported, not raised out of
the thread), and the `os.remove(filename)` after the send is never reached,
leaving the artifact on disk.  On success the artifact is removed. -/
def scRecordVideo (enabled : Nat → Bool) (startOk botPresent sendOk : Bool)
    (cfg : Config) (start : Nat) : ScRecOutcome :=
  if startOk then
    if enabled (recEnd enabled true cfg.duration start) then
      if botPresent then
        if sendOk then
          ⟨recEnd enabled true cfg.duration start, 1, false, 1, false⟩
        else
          ⟨recEnd enabled true cfg.duration start, 1, true, 1, false⟩
      else
        ⟨recEnd enabled true cfg.duration start, 1, true, 0, false⟩
    else
      ⟨recEnd enabled true cfg.duration start, 0, true, 0, false⟩
  else
    ⟨start, 0, false, 0, false⟩

/-- Events published on the SocketIO event bus by the usb.py detection loop
and its recording thread.  The code never publishes any acquisition-failure
event: when the video writer cannot be opened, `record_video` only prints
`Error: Could not open video writer` to the console. -/
inductive UsbEvent where
  | motionAlert (t : Nat)
  | motionRecorded (t : Nat)
  | acqFailed (t : Nat)
deriving DecidableEq

/-- State of the usb.py detection loop together with the visible effect of its
`record_video` threads: current tick, recording horizon, `motion_count`, the
bus events emitted so far, and the sessions created so far. -/
structure UsbState where
  time : Nat
  recUntil : Nat
  motionCount : Nat
  busEvents : List UsbEvent
  sessions : List Session
deriving DecidableEq

/-- One iteration of usb.py `motion_detection` (lines 224-237) composed with
the effects of the spawned `record_video` (lines 149-222).  On a trigger the
loop emits `motion_alert`, spawns the recorder, and sleeps
`COOLDOWN_TIME` plus the 0.1 s poll sleep — unconditionally, whether or not
the recorder manages to open its writer.  `acquireOk` tells whether the
`cv2.VideoWriter` opens at that tick; on failure the recorder clears
`recording` and returns without counting, emitting, or creating a session
(frame reads are assumed to succeed here; see `usbRecordVideo` for the
break-on-frame-failure path). -/
def usbLoopStep (sensor enabled acquireOk : Nat → Bool) (cfg : Config)
    (s : UsbState) : UsbState :=
  if sensor s.time && !(decide (s.time < s.recUntil)) && enabled s.time then
    if acquireOk s.time then
      ⟨s.time + cfg.cooldown + 1, recEnd enabled true cfg.duration s.time,
        s.motionCount + 1,
        s.busEvents ++ [UsbEvent.motionAlert s.time,
          UsbEvent.motionRecorded (recEnd enabled true cfg.duration s.time)],
        s.sessions ++ [⟨s.time, recEnd enabled true cfg.duration s.time⟩]⟩
    else
      ⟨s.time + cfg.cooldown + 1, s.recUntil, s.motionCount,
        s.busEvents ++ [UsbEvent.motionAlert s.time], s.sessions⟩
  else
    ⟨s.time + 1, s.recUntil, s.motionCount, s.busEvents, s.sessions⟩

/-- Run `fuel` iterations of the usb.py detection loop. -/
def runUsbLoop (sensor enabled acquireOk : Nat → Bool) (cfg : Config) :
    Nat → UsbState → UsbState
  | 0, s => s
  | fuel + 1, s =>
    runUsbLoop sensor enabled acquireOk cfg fuel
      (usbLoopStep sensor enabled acquireOk cfg s)

/-- Initial usb.py loop state. -/
def initUsbState : UsbState := ⟨0, 0, 0, [], []⟩

/-- One iteration of the new.py `motion_detection` loop (lines 188-201) with a
fallible sensor read.  The whole body sits inside `try: ... except Exception:
print(...); time.sleep(1)`: a read error is caught, logged, and the loop backs
off one second (`backoff` ticks) and retries.  security_camera.py lines
158-174 and usb.py lines 224-237 have the same try/except shape. -/
def newLoopStepE (read : Nat → Except Unit Bool) (enabled : Nat → Bool)
    (ce : Bool) (cfg : Config) (backoff : Nat) (s : LoopState) : LoopState :=
  match read s.time with
  | Except.error _ => ⟨s.time + backoff, s.recUntil, s.sessions⟩
  | Except.ok m => loopStep (fun _ => m) enabled ce cfg s

/-- Run `fuel` iterations of the new.py loop with a fallible sensor; the loop
always produces a next state — no error terminates it. -/
def runNewLoopE (read : Nat → Except Unit Bool) (enabled : Nat → Bool)
    (ce : Bool) (cfg : Config) (backoff : Nat) : Nat → LoopState → LoopState
  | 0, s => s
  | fuel + 1, s =>
    runNewLoopE read enabled ce cfg backoff fuel
      (newLoopStepE read enabled ce cfg backoff s)

/-- One iteration of the debug2.py `motion_detection` loop (lines 111-118).
The body has NO try/except: an exception from the sensor read propagates out
of the loop and kills the detection thread.  debug.py lines 83-91 and
debug3.py lines 133-140 are identical in this respect. -/
def debug2LoopStepE (read : Nat → Except Unit Bool) (enabled : Nat → Bool)
    (cfg : Config) (s : LoopState) : Except Unit LoopState :=
  match read s.time with
  | Except.error e => Except.error e
  | Except.ok m => Except.ok (loopStep (fun _ => m) enabled true cfg s)

/-- Run `fuel` iterations of the debug2.py loop; an uncaught sensor error
aborts the whole run. -/
def runDebug2Loop (read : Nat → Except Unit Bool) (enabled : Nat → Bool)
    (cfg : Config) : Nat → LoopState → Except Unit LoopState
  | 0, s => Except.ok s
  | fuel + 1, s =>
    match debug2LoopStepE read enabled cfg s with
    | Except.error e => Except.error e
    | Except.ok s2 => runDebug2Loop read enabled cfg fuel s2

/-- Under a persistently failing sensor the new.py loop keeps running: after
`fuel` iterations it has merely advanced its clock by `fuel` back-off sleeps,
with no session lost or gained and the loop still alive. -/
theorem runNewLoopE_const_error (enabled : Nat → Bool) (ce : Bool)
    (cfg : Config) (backoff : Nat) :
    ∀ fuel s, runNewLoopE (fun _ => Except.error ()) enabled ce cfg backoff fuel s
      = ⟨s.time + fuel * backoff, s.recUntil, s.sessions⟩ := by
  intro fuel
  induction fuel with
  | zero => intro s; simp [runNewLoopE]
  | succ n ih =>
    intro s
    show runNewLoopE (fun _ => Except.error ()) enabled ce cfg backoff n
        ⟨s.time + backoff, s.recUntil, s.sessions⟩
      = ⟨s.time + (n + 1) * backoff, s.recUntil, s.sessions⟩
    rw [ih ⟨s.time + backoff, s.recUntil, s.sessions⟩]
    have : s.time + backoff + n * backoff = s.time + (n + 1) * backoff := by ring
    rw [this]

/-- The physical camera device of debug3.py, identified by
`USB_CAMERA_INDEX`: we track how many `cv2.VideoCapture` handles are
currently open on it.  There is no lock or other mutual-exclusion gate
anywhere in debug3.py. -/
structure Device where
  openHandles : Nat
deriving DecidableEq

/-- debug3.py `get_camera` (lines 52-58): constructs and returns a brand-new
`cv2.VideoCapture(USB_CAMERA_INDEX)` on every call. -/
def get_camera (d : Device) : Device := ⟨d.openHandles + 1⟩

/-- debug3.py `cam.release()`. -/
def releaseCam (d : Device) : Device := ⟨d.openHandles - 1⟩

/-- debug3.py `generate_frames` (lines 60-77): opens its own dedicated camera
handle via `get_camera()` and holds it for the lifetime of the stream. -/
def generate_frames_open (d : Device) : Device := get_camera d

/-- debug3.py `record_video` (lines 85-95): opens a second, dedicated camera
handle via `get_camera()` for the recording session. -/
def record_video_acquire (d : Device) : Device := get_camera d

/-- The process-wide mutable flags of all variants (`motion_enabled`,
`recording`, `motion_count`, `system_start_time`). -/
structure SystemState where
  motionEnabled : Bool
  recording : Bool
  motionCount : Nat
  systemStartTime : Nat
deriving DecidableEq

/-- The `toggle_motion` route of new.py (lines 232-241) and
security_camera.py (lines 194-199), and `toggle_motion_bot` of usb.py (lines
276-280): each executes `motion_enabled = not motion_enabled`, emits a
`motion_toggle` event carrying the new value, and touches nothing else. -/
def toggle_motion (s : SystemState) : SystemState :=
  ⟨!s.motionEnabled, s.recording, s.motionCount, s.systemStartTime⟩

/-- Auxiliary facts extracted from `newRecordVideo` when `start_recording`
succeeded: the flag is cleared at the tick computed by `recEnd` and the
exception branch is not taken, in both the counted and the uncounted case. -/
theorem newRecordVideo_ok (enabled : Nat → Bool) (cfg : Config) (start : Nat) :
    (newRecordVideo enabled true cfg start).endTime
      = recEnd enabled true cfg.duration start ∧
    (newRecordVideo enabled true cfg start).failed = false := by
  unfold newRecordVideo
  by_cases h : enabled (recEnd enabled true cfg.duration start) = true
  · rw [if_pos rfl, if_pos h]; exact ⟨rfl, rfl⟩
  · rw [if_pos rfl, if_neg h]; exact ⟨rfl, rfl⟩

/-- Claim C1: for every sequence of motion readings processed by the
`motion_detection` loop together with `record_video`, at most one recording
session is active at any instant — the sessions the run creates are
well-formed intervals and pairwise ordered, so a new recording is never
started while a prior one has not yet terminated.  Holds for every variant
(both record loops that test `motion_enabled`, `ce = true`, and the debug.py
loop that does not, `ce = false`), because the loop guard requires
`not recording` and the flag stays set until the recorder clears it. -/
theorem C1_at_most_one_active_session (sensor enabled : Nat → Bool) (ce : Bool)
    (cfg : Config) (fuel : Nat) :
    List.Pairwise (fun a b => a.stop ≤ b.start)
      (runLoop sensor enabled ce cfg fuel initLoopState).sessions ∧
    ((runLoop sensor enabled ce cfg fuel initLoopState).sessions.all
      (fun a => decide (a.start ≤ a.stop))) = true := by
  have h := runLoop_inv sensor enabled ce cfg fuel initLoopState (initLoopState_inv cfg)
  constructor
  · exact List.Pairwise.imp (fun hab => hab.1) h.1
  · rw [List.all_eq_true]
    intro a ha
    exact decide_eq_true (h.2 a ha).1

/-- Claim C2 counterexample: in debug.py (cooldown = 5 s = 50 ticks,
duration = 10 s = 100 ticks) the cooldown sleep starts at motion onset,
concurrently with the recording — not at release.  With motion readings at
tick 0 and tick 120, the second event is accepted at tick 120, which is
before release (100) plus cooldown (50) = 150, refuting the claim that the
second acceptance time is at least the prior release time plus the cooldown
duration. -/
theorem C2_counterexample :
    (runLoop (fun t => t == 0 || t == 120) (fun _ => true) false ⟨100, 50⟩ 71
      initLoopState).sessions = [⟨0, 100⟩, ⟨120, 220⟩] ∧ 120 < 100 + 50 :=
  ⟨rfl, by decide⟩

/-- Claim C2 amended: the cooldown sleep begins at the trigger (motion
onset), running concurrently with the recording, so consecutively accepted
events satisfy: the second acceptance is no earlier than the prior session's
release AND no earlier than the prior trigger plus cooldown plus one poll
tick — not release plus cooldown.  In the scenario cooldown = 5, duration =
10, motion readings at t = 0, 1, 2 (ticks 0-20): exactly one session
[0, 100) is created, and the next acceptance window opens at tick 100 (the
moment the recording flag clears), not tick 150: a reading at tick 100 is
accepted immediately. -/
theorem C2_amended_cooldown_from_trigger :
    (∀ (sensor enabled : Nat → Bool) (ce : Bool) (cfg : Config) (fuel : Nat),
      List.Pairwise (sessionsOrdered cfg)
        (runLoop sensor enabled ce cfg fuel initLoopState).sessions) ∧
    (runLoop (fun t => decide (t ≤ 20) || t == 100) (fun _ => true) false
      ⟨100, 50⟩ 51 initLoopState).sessions = [⟨0, 100⟩, ⟨100, 200⟩] := by
  constructor
  · intro sensor enabled ce cfg fuel
    exact (runLoop_inv sensor enabled ce cfg fuel initLoopState (initLoopState_inv cfg)).1
  · rfl

/-- Claim C3 counterexample: in new.py a session that stops early because
`motion_enabled` was cleared (here at tick 3, well before the 100-tick
duration) takes no exception branch — per the claim it \"reaches Completed\" —
yet `motion_count` is NOT incremented, because the increment sits under the
post-loop `if motion_enabled:` test, refuting \"completion includes the early
stop caused by motionEnabled being cleared\". -/
theorem C3_counterexample :
    newRecordVideo (fun t => decide (t < 3)) true ⟨100, 50⟩ 0 = ⟨3, 0, false⟩ ∧
    3 < 0 + 100 :=
  ⟨rfl, by decide⟩

/-- Claim C3 amended: in new.py (and security_camera.py) `motion_count`
increments exactly once per session that started successfully and still has
`motion_enabled` set when the record loop exits — a full-duration recording
with the flag up counts once; an early stop caused by clearing the flag
counts zero; a failed start counts zero.  In usb.py, by contrast, the
`finally:` block increments `motion_count` once for EVERY session whose
writer opened — including sessions that end in a frame-capture failure — and
only a writer-open failure leaves the count unchanged. -/
theorem C3_amended_count_semantics (enabled : Nat → Bool) (cfg : Config)
    (start : Nat) :
    ((∀ t, enabled t = true) →
      newRecordVideo enabled true cfg start = ⟨start + cfg.duration, 1, false⟩) ∧
    (enabled (recEnd enabled true cfg.duration start) = false →
      (newRecordVideo enabled true cfg start).countInc = 0 ∧
      (newRecordVideo enabled true cfg start).failed = false) ∧
    ((newRecordVideo enabled false cfg start).countInc = 0) ∧
    (∀ (frames : Nat → Bool) (botPresent sendOk : Bool),
      (usbRecordVideo enabled frames true botPresent sendOk cfg start).countInc = 1 ∧
      (usbRecordVideo enabled frames false botPresent sendOk cfg start).countInc = 0) := by
  refine ⟨?_, ?_, ?_, ?_⟩
  · intro h
    simp [newRecordVideo, recEnd_all_true enabled h, h]
  · intro h
    unfold newRecordVideo
    rw [if_pos rfl, if_neg (by simp [h])]
    exact ⟨rfl, rfl⟩
  · unfold newRecordVideo
    rw [if_neg (by simp)]
  · intro frames botPresent sendOk
    constructor
    · unfold usbRecordVideo
      rw [if_pos rfl]
    · unfold usbRecordVideo
      rw [if_neg (by simp)]

/-- Claim C3 witness: a fully enabled session counts once; a session disabled
from tick 7 on stops early and counts zero. -/
theorem C3_amended_witness :
    newRecordVideo (fun _ => true) true ⟨100, 50⟩ 0 = ⟨0 + 100, 1, false⟩ ∧
    (newRecordVideo (fun t => decide (t < 7)) true ⟨100, 50⟩ 0).countInc = 0 := by
  constructor
  · exact (C3_amended_count_semantics (fun _ => true) ⟨100, 50⟩ 0).1 (fun _ => rfl)
  · exact ((C3_amended_count_semantics (fun t => decide (t < 7)) ⟨100, 50⟩ 0).2.1
      (by rfl)).1

/-- Claim C4 counterexample: in debug.py the record loop never consults
`motion_enabled` — with the flag cleared at every tick from the very start,
the session still runs the full planned 100-tick duration instead of
reaching a terminal status within one frame interval. -/
theorem C4_counterexample :
    debugRecordVideo (fun _ => false) ⟨100, 50⟩ 0 = ⟨0 + 100, 1, false⟩ ∧
    1 < 100 :=
  ⟨rfl, by decide⟩

/-- Claim C4 amended: in the variants whose record loop tests the flag each
checkpoint (new.py, security_camera.py, usb.py, debug2.py, debug3.py),
clearing `motion_enabled` at tick `t0` terminates the session by tick `t0` —
within one 0.1 s checkpoint of the clearing, not after the full planned
duration — and the early stop takes no exception branch (treated as normal
completion).  In debug.py the record loop ignores the flag entirely and
always runs the full planned duration. -/
theorem C4_amended_early_stop (enabled : Nat → Bool) (cfg : Config)
    (start t0 : Nat) (h1 : start ≤ t0) (h2 : enabled t0 = false) :
    (newRecordVideo enabled true cfg start).endTime ≤ t0 ∧
    (newRecordVideo enabled true cfg start).failed = false ∧
    debugRecordVideo enabled cfg start = ⟨start + cfg.duration, 1, false⟩ := by
  refine ⟨?_, (newRecordVideo_ok enabled cfg start).2, ?_⟩
  · rw [(newRecordVideo_ok enabled cfg start).1]
    exact recEnd_stop enabled h2 cfg.duration start h1
  · unfold debugRecordVideo
    rw [recEnd_no_check enabled cfg.duration start]

/-- Claim C4 witness: flag cleared from tick 5 on; the new.py session ends by
tick 5 without failure while the debug.py session runs the full 100 ticks. -/
theorem C4_amended_witness :
    (newRecordVideo (fun t => decide (t < 5)) true ⟨100, 50⟩ 0).endTime ≤ 5 ∧
    (newRecordVideo (fun t => decide (t < 5)) true ⟨100, 50⟩ 0).failed = false ∧
    debugRecordVideo (fun t => decide (t < 5)) ⟨100, 50⟩ 0 = ⟨0 + 100, 1, false⟩ :=
  C4_amended_early_stop (fun t => decide (t < 5)) ⟨100, 50⟩ 0 5 (by decide) (by decide)

/-- Claim C5 counterexample: in usb.py a delivery failure (`sendOk = false`)
is caught and printed, but the subsequent `os.remove(filename)` runs
unconditionally: the artifact is NOT retained on disk
(`fileRetained = false`), refuting the claimed retain-on-failure behaviour. -/
theorem C5_counterexample :
    usbRecordVideo (fun _ => true) (fun _ => true) true true false ⟨100, 50⟩ 0
      = ⟨100, 1, false, 1, true, false, false⟩ :=
  rfl

/-- Claim C5 amended: both cited variants make exactly one delivery attempt
per finished artifact, and a delivery failure is reported (caught and
logged), never raised out of the recording job.  They differ on retention:
usb.py deletes the artifact after the attempt REGARDLESS of the delivery
outcome, while security_camera.py deletes it only on success and retains it
on failure (the failed `send_video` raises past the `os.remove` into the
outer except). -/
theorem C5_amended_artifact_lifecycle (enabled frames : Nat → Bool)
    (sendOk : Bool) (cfg : Config) (start : Nat) :
    ((usbRecordVideo enabled frames true true sendOk cfg start).sendAttempts = 1 ∧
     (usbRecordVideo enabled frames true true sendOk cfg start).fileRetained = false ∧
     (usbRecordVideo enabled frames true true sendOk cfg start).raisedOut = false) ∧
    (enabled (recEnd enabled true cfg.duration start) = true →
      (scRecordVideo enabled true true false cfg start).fileRetained = true ∧
      (scRecordVideo enabled true true false cfg start).sendAttempts = 1 ∧
      (scRecordVideo enabled true true false cfg start).raisedOut = false ∧
      (scRecordVideo enabled true true true cfg start).fileRetained = false ∧
      (scRecordVideo enabled true true true cfg start).sendAttempts = 1) := by
  constructor
  · refine ⟨?_, ?_, ?_⟩ <;> simp [usbRecordVideo]
  · intro h
    refine ⟨?_, ?_, ?_, ?_, ?_⟩ <;> simp [scRecordVideo, h]

/-- Claim C5 witness: with delivery failing, security_camera.py retains the
artifact while usb.py (delivery succeeding or not) has deleted it. -/
theorem C5_amended_witness :
    (scRecordVideo (fun _ => true) true true false ⟨100, 50⟩ 0).fileRetained = true ∧
    (usbRecordVideo (fun _ => true) (fun _ => true) true true true ⟨100, 50⟩ 0).fileRetained
      = false := by
  constructor
  · exact ((C5_amended_artifact_lifecycle (fun _ => true) (fun _ => true) false
      ⟨100, 50⟩ 0).2 rfl).1
  · exact ((C5_amended_artifact_lifecycle (fun _ => true) (fun _ => true) true
      ⟨100, 50⟩ 0).1).2.1

/-- Claim C6 counterexample: usb.py, camera acquisition (the video writer)
failing at the tick-0 trigger.  `motion_count` is indeed unchanged and no
session exists, BUT the event bus carries only the generic `motion_alert` —
no acquisition-failure event (the failure is only printed) — and the loop
slept the full cooldown anyway: after 12 iterations it has reached tick 62,
so the fresh motion reading at tick 10 (with nothing recording) was never
polled and no session was created — the next motion event could NOT be
accepted without waiting out the cooldown window, refuting the no-penalty
part of the claim. -/
theorem C6_counterexample :
    runUsbLoop (fun t => t == 0 || t == 10) (fun _ => true) (fun _ => false)
      ⟨100, 50⟩ 12 initUsbState
      = ⟨62, 0, 0, [UsbEvent.motionAlert 0], []⟩ :=
  rfl

/-- Claim C6 amended: when acquisition fails at a trigger in usb.py, the
trigger is aborted with `motion_count` unchanged, no session is created, and
`recording` is cleared at once — but the failure is only printed to the
console (the bus receives just the generic `motion_alert`, no
acquisition-failure event), and the detection loop still sleeps the full
cooldown plus one poll tick before reading the sensor again, so the next
motion event does pay the cooldown penalty. -/
theorem C6_amended_acquisition_failure (sensor enabled acquireOk : Nat → Bool)
    (cfg : Config) (s : UsbState) (h1 : sensor s.time = true)
    (h2 : s.recUntil ≤ s.time) (h3 : enabled s.time = true)
    (h4 : acquireOk s.time = false) :
    usbLoopStep sensor enabled acquireOk cfg s
      = ⟨s.time + cfg.cooldown + 1, s.recUntil, s.motionCount,
          s.busEvents ++ [UsbEvent.motionAlert s.time], s.sessions⟩ := by
  have hd : decide (s.time < s.recUntil) = false := decide_eq_false (by omega)
  unfold usbLoopStep
  rw [if_pos (by simp [h1, h3, hd]), if_neg (by simp [h4])]

/-- Claim C6 witness: concrete acquisition failure at tick 0. -/
theorem C6_amended_witness :
    usbLoopStep (fun _ => true) (fun _ => true) (fun _ => false) ⟨100, 50⟩
      initUsbState
      = ⟨51, 0, 0, [UsbEvent.motionAlert 0], []⟩ :=
  C6_amended_acquisition_failure (fun _ => true) (fun _ => true) (fun _ => false)
    ⟨100, 50⟩ initUsbState rfl (Nat.le_refl 0) rfl rfl

/-- Claim C7 (code bug, acknowledged by the spec's own design notes): in
debug3.py the preview path (`generate_frames`) opens and holds its own
`cv2.VideoCapture` on `USB_CAMERA_INDEX`, and `record_video` opens a second
one via `get_camera()` for the recording session — so during a recording
with the preview active, two conflicting exclusive handles are open on the
same physical device concurrently (and only drop back to one when the
recorder releases).  No mutual-exclusion gate exists anywhere in the file. -/
theorem C7_two_handles_open :
    (record_video_acquire (generate_frames_open ⟨0⟩)).openHandles = 2 ∧
    (releaseCam (record_video_acquire (generate_frames_open ⟨0⟩))).openHandles = 1 :=
  ⟨rfl, rfl⟩

/-- Claim C8 counterexample: the `motion_detection` loop of
security_camera.py / usb.py does no edge detection.  First run: the sensor
level is constantly high (a single rising edge before tick 0), yet a second
session is triggered at tick 100 — a repeated high reading produced a second
event with no new edge.  Second run: the sensor is held high while
`motion_enabled` is false until tick 30; at tick 30, the first enabled poll,
the stale high level fires immediately upon re-enable. -/
theorem C8_counterexample :
    (runLoop (fun _ => true) (fun _ => true) true ⟨100, 50⟩ 51
      initLoopState).sessions = [⟨0, 100⟩, ⟨100, 200⟩] ∧
    (runLoop (fun _ => true) (fun t => decide (30 ≤ t)) true ⟨100, 50⟩ 31
      initLoopState).sessions = [⟨30, 130⟩] :=
  ⟨rfl, rfl⟩

/-- Claim C8 amended: the sensor monitor is level-triggered, not
edge-triggered.  At any poll with the recording flag clear, a high sensor
level with motion enabled creates a session starting at that very tick —
whether or not the level was already high before (event storms are limited
only by the cooldown sleep and the recording flag); and while motion is
disabled the loop keeps polling but emits nothing, keeping no edge state, so
a sensor still high at the first enabled poll fires immediately. -/
theorem C8_amended_level_trigger (sensor enabled : Nat → Bool) (ce : Bool)
    (cfg : Config) (s : LoopState) (hidle : s.recUntil ≤ s.time) :
    (sensor s.time = true → enabled s.time = true →
      loopStep sensor enabled ce cfg s
        = ⟨s.time + cfg.cooldown + 1, recEnd enabled ce cfg.duration s.time,
            s.sessions ++ [⟨s.time, recEnd enabled ce cfg.duration s.time⟩]⟩) ∧
    (enabled s.time = false →
      loopStep sensor enabled ce cfg s = ⟨s.time + 1, s.recUntil, s.sessions⟩) := by
  have hd : decide (s.time < s.recUntil) = false := decide_eq_false (by omega)
  constructor
  · intro hs he
    unfold loopStep
    rw [if_pos (by simp [hs, he, hd])]
  · intro he
    unfold loopStep
    rw [if_neg (by simp [he])]

/-- Claim C8 witness: a high level at an idle enabled poll fires; a disabled
poll suppresses. -/
theorem C8_amended_witness :
    loopStep (fun _ => true) (fun _ => true) true ⟨100, 50⟩ initLoopState
      = ⟨51, 100, [⟨0, 100⟩]⟩ ∧
    loopStep (fun _ => true) (fun _ => false) true ⟨100, 50⟩ initLoopState
      = ⟨1, 0, []⟩ := by
  constructor
  · exact (C8_amended_level_trigger (fun _ => true) (fun _ => true) true ⟨100, 50⟩
      initLoopState (Nat.le_refl 0)).1 rfl rfl
  · exact (C8_amended_level_trigger (fun _ => true) (fun _ => false) true ⟨100, 50⟩
      initLoopState (Nat.le_refl 0)).2 rfl

/-- Claim C9 counterexample: the debug2.py `motion_detection` loop has no
try/except — a sensor read error at the first poll propagates out and the
run of the loop terminates with the error, refuting \"the sensing loop never
terminates because of such a failure\". -/
theorem C9_counterexample :
    runDebug2Loop (fun _ => Except.error ()) (fun _ => true) ⟨100, 50⟩ 5
      initLoopState = Except.error () :=
  rfl

/-- Claim C9 amended: in new.py (and security_camera.py, usb.py) the loop
body is wrapped in try/except: a sensor read error is caught, logged, and the
loop sleeps the 1 s back-off and retries — under a persistently failing
sensor the loop is still alive after any number of iterations, its state
unchanged except for the back-off clock.  In debug.py, debug2.py and
debug3.py there is no handler: the same read error propagates and terminates
the detection loop. -/
theorem C9_amended_error_handling (read : Nat → Except Unit Bool)
    (enabled : Nat → Bool) (ce : Bool) (cfg : Config) (backoff : Nat)
    (s : LoopState) (h : read s.time = Except.error ()) :
    newLoopStepE read enabled ce cfg backoff s
      = ⟨s.time + backoff, s.recUntil, s.sessions⟩ ∧
    debug2LoopStepE read enabled cfg s = Except.error () ∧
    (∀ fuel, runNewLoopE (fun _ => Except.error ()) enabled ce cfg backoff fuel s
      = ⟨s.time + fuel * backoff, s.recUntil, s.sessions⟩) := by
  refine ⟨?_, ?_, ?_⟩
  · unfold newLoopStepE
    rw [h]
  · unfold debug2LoopStepE
    rw [h]
  · intro fuel
    exact runNewLoopE_const_error enabled ce cfg backoff fuel s

/-- Claim C9 witness: a failing read at tick 0 backs off in new.py and kills
the debug2.py loop. -/
theorem C9_amended_witness :
    newLoopStepE (fun _ => Except.error ()) (fun _ => true) true ⟨100, 50⟩ 10
      initLoopState = ⟨10, 0, []⟩ ∧
    debug2LoopStepE (fun _ => Except.error ()) (fun _ => true) ⟨100, 50⟩
      initLoopState = Except.error () := by
  have h := C9_amended_error_handling (fun _ => Except.error ()) (fun _ => true)
    true ⟨100, 50⟩ 10 initLoopState rfl
  exact ⟨h.1, h.2.1⟩

/-- Claim C10: `toggle_motion` flips `motion_enabled` and changes no other
field of the system state — `recording`, `motion_count` and the system start
time are untouched — and two consecutive invocations restore the original
state. -/
theorem C10_toggle_motion_involutive (s : SystemState) :
    (toggle_motion s).motionEnabled = !s.motionEnabled ∧
    (toggle_motion s).recording = s.recording ∧
    (toggle_motion s).motionCount = s.motionCount ∧
    (toggle_motion s).systemStartTime = s.systemStartTime ∧
    toggle_motion (toggle_motion s) = s := by
  refine ⟨rfl, rfl, rfl, rfl, ?_⟩
  simp [toggle_motion]

end SmartSecurityCamera
